import Mathlib

/-!
# Nephele HTTP service: lifecycle and handler composition

A shallow embedding of `service/service.go`.  The stateful methods of
`*Service` become functions from a `Service` value to the next `Service`
value.  The collaborators that live outside `service.go` (the gin engine,
the handler factory, the middleware builder, the image registrar and the
`net/http` server) are either small explicit models or fields of an
environment `Env` over which every theorem is quantified.

Type parameters used throughout:
* `H` : domain handlers (`handler.HandlerFunc`),
* `N` : native handlers (`gin.HandlerFunc`),
* `M` : non-nil values of the middleware configuration (`interface{}`),
* `E` : non-nil values of Go's `error`,
* `C` : the application context (`*context.Context`).
-/

namespace Nephele

/-! ## Data model -/

/-- Service configuration, `type Config struct`.  The Go `int` fields are
integers; `Middleware` has type `interface{}`, whose `nil` is `none`. -/
structure Config (M : Type) where
  Address : String
  BufferSize : Int
  MaxConcurrency : Int
  RequestTimeout : Int
  QuitTimeout : Int
  MiddlewarePath : String
  Middleware : Option M

/-- Modelled from the spec: the handler factory (`handler.HandlerFactory`,
package `service/handler`, not part of `service.go`).  `Create` is the
bootstrap interceptor it manufactures, `Build` wraps one domain handler. -/
structure HandlerFactory (H N : Type) where
  Create : N
  Build : H → N

/-- Modelled from the spec: `BuildMany` (package `service/handler`) applies
`Build` to each handler, preserving order; empty input yields an empty
chain. -/
def HandlerFactory.BuildMany {H N : Type} (f : HandlerFactory H N) (handlers : List H) : List N :=
  handlers.map f.Build

/-- One entry of the engine's route table: method, path and the chain bound
to the pair. -/
structure RouteInfo (N : Type) where
  Method : String
  Path : String
  Handlers : List N
deriving DecidableEq, Repr

/-- Modelled from the spec: the underlying router (`gin.Engine`, an external
collaborator).  `Handlers` is the list of global interceptors, `routes` the
route table in registration order.  The engine is modelled the way the
specification fixes it: a route is bound to the global interceptors
installed at the moment of registration followed by the handlers passed in.
The engine's own validation of paths and chains is outside the model. -/
structure Engine (N : Type) where
  Handlers : List N
  routes : List (RouteInfo N)
deriving DecidableEq, Repr

/-- Engine returned by `gin.New()`: no global interceptor, no route. -/
def Engine.New {N : Type} : Engine N :=
  { Handlers := [], routes := [] }

/-- Engine method `Use`: append one interceptor to the global list. -/
def Engine.Use {N : Type} (e : Engine N) (m : N) : Engine N :=
  { e with Handlers := e.Handlers ++ [m] }

/-- Engine registration primitive behind every verb method. -/
def Engine.handle {N : Type} (e : Engine N) (httpMethod relativePath : String)
    (handlers : List N) : Engine N :=
  { e with routes := e.routes ++ [{ Method := httpMethod, Path := relativePath,
                                    Handlers := e.Handlers ++ handlers }] }

def Engine.GET {N : Type} (e : Engine N) (relativePath : String) (handlers : List N) : Engine N :=
  e.handle "GET" relativePath handlers

def Engine.POST {N : Type} (e : Engine N) (relativePath : String) (handlers : List N) : Engine N :=
  e.handle "POST" relativePath handlers

def Engine.DELETE {N : Type} (e : Engine N) (relativePath : String) (handlers : List N) : Engine N :=
  e.handle "DELETE" relativePath handlers

def Engine.PUT {N : Type} (e : Engine N) (relativePath : String) (handlers : List N) : Engine N :=
  e.handle "PUT" relativePath handlers

def Engine.OPTIONS {N : Type} (e : Engine N) (relativePath : String) (handlers : List N) : Engine N :=
  e.handle "OPTIONS" relativePath handlers

def Engine.HEAD {N : Type} (e : Engine N) (relativePath : String) (handlers : List N) : Engine N :=
  e.handle "HEAD" relativePath handlers

/-- The `net/http` server value built by `New`; its `Handler` field is the
service's router, so only the listen address is stored. -/
structure Server where
  Addr : String
deriving DecidableEq, Repr

/-- The six registration operations of the service. -/
inductive Verb where
  | GET | POST | DELETE | PUT | OPTIONS | HEAD
deriving DecidableEq, Repr

/-- HTTP method name of a verb. -/
def Verb.method : Verb → String
  | .GET => "GET"
  | .POST => "POST"
  | .DELETE => "DELETE"
  | .PUT => "PUT"
  | .OPTIONS => "OPTIONS"
  | .HEAD => "HEAD"

/-- One route registration request: which verb operation is called, with
which path and which domain handlers. -/
structure Registration (H : Type) where
  verb : Verb
  relativePath : String
  handlers : List H
deriving DecidableEq, Repr

/-- Modelled from the spec: the image sub-service registrar (`ImageService`,
not part of `service.go`): a deferred unit of route registrations, each
bound through the verb operations of the owning service. -/
structure ImageService (H : Type) where
  routes : List (Registration H)

/-- A call made by the service on one of its collaborators. -/
inductive Call (N : Type) where
  | Use (m : N)
  | Handle (httpMethod relativePath : String) (handlers : List N)
  | RegisterAll
  | ListenAndServe
  | Shutdown (timeout : Int)
deriving DecidableEq, Repr

/-- The service, `type Service struct`.  The field `calls` is not in the
source: it records, in order, the calls the service has made on its
collaborators, so that statements about sequences of effects can be
written down. -/
structure Service (H N M : Type) where
  conf : Config M
  image : ImageService H
  router : Engine N
  internal : Server
  factory : HandlerFactory H N
  calls : List (Call N)

/-- The collaborators reached from `service.go` through package-level
functions or through the `net/http` server. -/
structure Env (C H N M E : Type) where
  /-- Function `handler.NewFactory`. -/
  NewFactory : C → HandlerFactory H N
  /-- Function `middleware.Build`. -/
  Build : Option M → List N
  /-- Routes bound by the image registrar. -/
  imageRoutes : List (Registration H)
  /-- Method `ListenAndServe` of the server: the error it ends with. -/
  ListenAndServe : Server → Option E
  /-- Method `Shutdown` of the server, given the timeout of the context in
  nanoseconds. -/
  Shutdown : Server → Int → Option E

/-! ## Operations of `service.go` -/

/-- Returns service with given context and config (`func New`). -/
def New {C H N M E : Type} (env : Env C H N M E) (ctx : C) (conf : Config M) : Service H N M :=
  { conf := conf
    image := { routes := env.imageRoutes }
    router := Engine.New
    internal := { Addr := conf.Address }
    factory := env.NewFactory ctx
    calls := [] }

/-- Return an instance of Config with reasonable defaults
(`func DefaultConfig`); `numCPU` is the value of `runtime.NumCPU()`. -/
def DefaultConfig {M E : Type} (numCPU : Int) : Config M × Option E :=
  ({ Address := ":8080"
     BufferSize := 200
     RequestTimeout := 3000
     QuitTimeout := 5000
     MaxConcurrency := numCPU
     MiddlewarePath := ""
     Middleware := none }, none)

/-- Register http GET handler. -/
def Service.GET {H N M : Type} (s : Service H N M) (relativePath : String)
    (handlers : List H) : Service H N M :=
  { s with
    router := s.router.GET relativePath (s.factory.BuildMany handlers)
    calls := s.calls ++ [Call.Handle "GET" relativePath (s.factory.BuildMany handlers)] }

/-- Register http POST handler. -/
def Service.POST {H N M : Type} (s : Service H N M) (relativePath : String)
    (handlers : List H) : Service H N M :=
  { s with
    router := s.router.POST relativePath (s.factory.BuildMany handlers)
    calls := s.calls ++ [Call.Handle "POST" relativePath (s.factory.BuildMany handlers)] }

/-- Register http DELETE handler. -/
def Service.DELETE {H N M : Type} (s : Service H N M) (relativePath : String)
    (handlers : List H) : Service H N M :=
  { s with
    router := s.router.DELETE relativePath (s.factory.BuildMany handlers)
    calls := s.calls ++ [Call.Handle "DELETE" relativePath (s.factory.BuildMany handlers)] }

/-- Register http PUT handler. -/
def Service.PUT {H N M : Type} (s : Service H N M) (relativePath : String)
    (handlers : List H) : Service H N M :=
  { s with
    router := s.router.PUT relativePath (s.factory.BuildMany handlers)
    calls := s.calls ++ [Call.Handle "PUT" relativePath (s.factory.BuildMany handlers)] }

/-- Register http OPTIONS handler. -/
def Service.OPTIONS {H N M : Type} (s : Service H N M) (relativePath : String)
    (handlers : List H) : Service H N M :=
  { s with
    router := s.router.OPTIONS relativePath (s.factory.BuildMany handlers)
    calls := s.calls ++ [Call.Handle "OPTIONS" relativePath (s.factory.BuildMany handlers)] }

/-- Register http HEAD handler. -/
def Service.HEAD {H N M : Type} (s : Service H N M) (relativePath : String)
    (handlers : List H) : Service H N M :=
  { s with
    router := s.router.HEAD relativePath (s.factory.BuildMany handlers)
    calls := s.calls ++ [Call.Handle "HEAD" relativePath (s.factory.BuildMany handlers)] }

/-- Return image service. -/
def Service.Image {H N M : Type} (s : Service H N M) : ImageService H :=
  s.image

/-- The verb operation selected by a registration request. -/
def Service.register {H N M : Type} (s : Service H N M) (r : Registration H) : Service H N M :=
  match r.verb with
  | .GET => s.GET r.relativePath r.handlers
  | .POST => s.POST r.relativePath r.handlers
  | .DELETE => s.DELETE r.relativePath r.handlers
  | .PUT => s.PUT r.relativePath r.handlers
  | .OPTIONS => s.OPTIONS r.relativePath r.handlers
  | .HEAD => s.HEAD r.relativePath r.handlers

/-- A sequence of registration requests, served in order. -/
def Service.registerMany {H N M : Type} (s : Service H N M) (rs : List (Registration H)) :
    Service H N M :=
  rs.foldl Service.register s

/-- Modelled from the spec: `image.init().registerAll()` of the image
registrar (not part of `service.go`): the call is recorded, then the
registrar binds each of its routes through the verb operations. -/
def ImageService.registerAll {H N M : Type} (i : ImageService H) (s : Service H N M) :
    Service H N M :=
  Service.registerMany { s with calls := s.calls ++ [Call.RegisterAll] } i.routes

/-- The call `s.router.Use(m)` made by the service. -/
def Service.routerUse {H N M : Type} (s : Service H N M) (m : N) : Service H N M :=
  { s with router := s.router.Use m, calls := s.calls ++ [Call.Use m] }

/-- Use middlewares (`func useMiddlewares`): the loop over
`middleware.Build(s.conf.Middleware)`. -/
def Service.useMiddlewares {C H N M E : Type} (env : Env C H N M E) (s : Service H N M) :
    Service H N M :=
  (env.Build s.conf.Middleware).foldl Service.routerUse s

/-- Open image http service (`func Open`): the service after the call and
the error `ListenAndServe` ended with. -/
def Service.Open {C H N M E : Type} (env : Env C H N M E) (s : Service H N M) :
    Service H N M × Option E :=
  let s1 := s.routerUse s.factory.Create
  let s2 := s1.useMiddlewares env
  let s3 := s2.image.registerAll s2
  ({ s3 with calls := s3.calls ++ [Call.ListenAndServe] }, env.ListenAndServe s3.internal)

/-- Two's complement wrap-around of a 64-bit signed integer operation. -/
def wrapInt64 (x : Int) : Int :=
  (x + 2 ^ 63) % 2 ^ 64 - 2 ^ 63

/-- Constant `time.Millisecond`, in nanoseconds. -/
def Millisecond : Int := 1000000

/-- The expression `time.Duration(s.conf.QuitTimeout) * time.Millisecond`:
a product of `int64` values, with `int` taken to be 64 bits wide. -/
def quitTimeout {M : Type} (conf : Config M) : Int :=
  wrapInt64 (wrapInt64 conf.QuitTimeout * Millisecond)

/-- Quit image http service gracefully (`func Quit`): the context handed to
`Shutdown` is represented by its timeout. -/
def Service.Quit {C H N M E : Type} (env : Env C H N M E) (s : Service H N M) :
    Service H N M × Option E :=
  ({ s with calls := s.calls ++ [Call.Shutdown (quitTimeout s.conf)] },
   env.Shutdown s.internal (quitTimeout s.conf))

/-! ## Route entries and engine calls of a registration -/

/-- The route-table entry a registration request produces when the global
interceptors are `globals`. -/
def boundRoute {H N : Type} (f : HandlerFactory H N) (globals : List N)
    (r : Registration H) : RouteInfo N :=
  { Method := r.verb.method, Path := r.relativePath,
    Handlers := globals ++ f.BuildMany r.handlers }

/-- The engine call a registration request produces. -/
def handleCall {H N : Type} (f : HandlerFactory H N) (r : Registration H) : Call N :=
  Call.Handle r.verb.method r.relativePath (f.BuildMany r.handlers)


/-! ## Admission gate of the bootstrap interceptor -/

/-- Modelled from the spec: the state of the admission gate kept by the
bootstrap interceptor (`handler.Create`, package `service/handler`, not part
of `service.go`): the number of requests in flight and the number of
requests waiting in the buffer. -/
structure Gate where
  inFlight : Nat
  waiting : Nat
deriving DecidableEq, Repr

/-- What the gate decides for an arriving request. -/
inductive Admission where
  | admitted | queued | rejected
deriving DecidableEq, Repr

/-- Modelled from the spec: one request arriving at the gate of the
bootstrap interceptor (absent from `service.go`).  It is admitted only if
fewer than `MaxConcurrency` requests are in flight; when the ceiling is
reached it is queued while fewer than `BufferSize` requests wait, and
rejected otherwise.  Arrivals are atomic steps: the gate is the only
serialization point. -/
def Gate.arrive {M : Type} (conf : Config M) (g : Gate) : Gate × Admission :=
  if (g.inFlight : Int) < conf.MaxConcurrency then
    ({ g with inFlight := g.inFlight + 1 }, Admission.admitted)
  else if (g.waiting : Int) < conf.BufferSize then
    ({ g with waiting := g.waiting + 1 }, Admission.queued)
  else
    (g, Admission.rejected)

/-- The gate after `k` long-running requests have arrived one after the
other, none of them finishing, with the outcomes in arrival order. -/
def Gate.arrivals {M : Type} (conf : Config M) : Nat → Gate → Gate × List Admission
  | 0, g => (g, [])
  | k + 1, g =>
    let r := Gate.arrivals conf k g
    let a := Gate.arrive conf r.1
    (a.1, r.2 ++ [a.2])

/-- The gate of a service that has just been opened. -/
def Gate.idle : Gate := { inFlight := 0, waiting := 0 }

/-! ## Properties used to state the results -/

/-- Whether a recorded call is the invocation of the image registrar. -/
def Call.isRegisterAll {N : Type} : Call N → Bool
  | .RegisterAll => true
  | _ => false

/-- Whether a recorded call is `ListenAndServe`. -/
def Call.isListenAndServe {N : Type} : Call N → Bool
  | .ListenAndServe => true
  | _ => false

/-- A factory over numbered handlers: the bootstrap interceptor is `0`, the
domain handler `h` is wrapped as `h + 100`. -/
def exFactory : HandlerFactory Nat Nat :=
  { Create := 0, Build := fun h => h + 100 }

/-- An environment in which the middleware builder yields the interceptors
`1, 2, 3`, the image registrar binds one route and the listener fails to
bind. -/
def exEnv : Env Unit Nat Nat Unit String :=
  { NewFactory := fun _ => exFactory
    Build := fun _ => [1, 2, 3]
    imageRoutes := [{ verb := Verb.GET, relativePath := "/image", handlers := [7] }]
    ListenAndServe := fun _ => some "bind: address already in use"
    Shutdown := fun _ timeout => if timeout ≤ 0 then some "context deadline exceeded" else none }

/-- The default configuration on a machine with four logical cores. -/
def exConf : Config Unit :=
  { Address := ":8080", BufferSize := 200, MaxConcurrency := 4, RequestTimeout := 3000,
    QuitTimeout := 5000, MiddlewarePath := "", Middleware := none }

/-- A configuration whose quit timeout, in milliseconds, is a valid 64-bit
`int` but exceeds what a duration in nanoseconds can hold. -/
def exLongQuitConf : Config Unit :=
  { exConf with QuitTimeout := 9223372036855 }

/-- A configuration with a ceiling of two requests and no waiting buffer. -/
def exGateConf : Config Unit :=
  { exConf with MaxConcurrency := 2, BufferSize := 0 }

/-! ## Lemmas -/

theorem Service.register_eq {H N M : Type} (s : Service H N M) (r : Registration H) :
    s.register r =
      { s with
        router := { s.router with
                    routes := s.router.routes ++ [boundRoute s.factory s.router.Handlers r] }
        calls := s.calls ++ [handleCall s.factory r] } := by
  obtain ⟨v, p, hs⟩ := r
  cases v <;> rfl

theorem Service.registerMany_eq {H N M : Type} (rs : List (Registration H))
    (s : Service H N M) :
    s.registerMany rs =
      { s with
        router := { s.router with
                    routes := s.router.routes ++ rs.map (boundRoute s.factory s.router.Handlers) }
        calls := s.calls ++ rs.map (handleCall s.factory) } := by
  induction rs generalizing s with
  | nil => simp [Service.registerMany]
  | cons r rs ih =>
    have step : s.registerMany (r :: rs) = (s.register r).registerMany rs := rfl
    rw [step, ih, Service.register_eq]
    simp

theorem Service.foldl_routerUse_eq {H N M : Type} (ms : List N) (s : Service H N M) :
    ms.foldl Service.routerUse s =
      { s with
        router := { s.router with Handlers := s.router.Handlers ++ ms }
        calls := s.calls ++ ms.map Call.Use } := by
  induction ms generalizing s with
  | nil => simp
  | cons m ms ih =>
    rw [List.foldl_cons, ih]
    simp [Service.routerUse, Engine.Use]

/-- Closed form of `Open`: the state it leaves and the error it returns. -/
theorem Service.Open_eq {C H N M E : Type} (env : Env C H N M E) (s : Service H N M) :
    s.Open env =
      ({ s with
         router :=
           { Handlers := s.router.Handlers ++ s.factory.Create :: env.Build s.conf.Middleware
             routes := s.router.routes ++
               s.image.routes.map (boundRoute s.factory
                 (s.router.Handlers ++ s.factory.Create :: env.Build s.conf.Middleware)) }
         calls := s.calls ++ Call.Use s.factory.Create ::
           ((env.Build s.conf.Middleware).map Call.Use ++ Call.RegisterAll ::
             (s.image.routes.map (handleCall s.factory) ++ [Call.ListenAndServe])) },
       env.ListenAndServe s.internal) := by
  simp [Service.Open, Service.useMiddlewares, ImageService.registerAll,
    Service.registerMany_eq, Service.foldl_routerUse_eq, Service.routerUse, Engine.Use]

theorem filter_isRegisterAll_map_Use {N : Type} (ms : List N) :
    ((ms.map Call.Use).filter Call.isRegisterAll) = [] := by
  induction ms with
  | nil => rfl
  | cons m ms ih => simp [List.filter_cons, Call.isRegisterAll]

theorem filter_isRegisterAll_map_handleCall {H N : Type} (f : HandlerFactory H N)
    (rs : List (Registration H)) :
    ((rs.map (handleCall f)).filter Call.isRegisterAll) = [] := by
  induction rs with
  | nil => rfl
  | cons r rs ih => simp [List.filter_cons, Call.isRegisterAll, handleCall]

theorem filter_isListenAndServe_map_Use {N : Type} (ms : List N) :
    ((ms.map Call.Use).filter Call.isListenAndServe) = [] := by
  induction ms with
  | nil => rfl
  | cons m ms ih => simp [List.filter_cons, Call.isListenAndServe]

theorem filter_isListenAndServe_map_handleCall {H N : Type} (f : HandlerFactory H N)
    (rs : List (Registration H)) :
    ((rs.map (handleCall f)).filter Call.isListenAndServe) = [] := by
  induction rs with
  | nil => rfl
  | cons r rs ih => simp [List.filter_cons, Call.isListenAndServe, handleCall]

theorem Gate.arrive_inFlight_le {M : Type} (conf : Config M) (g : Gate)
    (h : (g.inFlight : Int) ≤ conf.MaxConcurrency) :
    ((Gate.arrive conf g).1.inFlight : Int) ≤ conf.MaxConcurrency := by
  unfold Gate.arrive
  split_ifs with h1 h2
  · simp only [Nat.cast_add, Nat.cast_one]
    omega
  · exact h
  · exact h

theorem Gate.arrivals_inFlight_le {M : Type} (conf : Config M)
    (h : 0 ≤ conf.MaxConcurrency) (k : Nat) :
    ((Gate.arrivals conf k Gate.idle).1.inFlight : Int) ≤ conf.MaxConcurrency := by
  induction k with
  | zero => simpa [Gate.arrivals, Gate.idle] using h
  | succ k ih => exact Gate.arrive_inFlight_le conf _ ih

theorem Gate.arrivals_below_ceiling {M : Type} (conf : Config M) (k : Nat)
    (h : (k : Int) ≤ conf.MaxConcurrency) :
    Gate.arrivals conf k Gate.idle =
      ({ inFlight := k, waiting := 0 }, List.replicate k Admission.admitted) := by
  induction k with
  | zero => rfl
  | succ k ih =>
    have hk : (k : Int) < conf.MaxConcurrency := by push_cast at h; omega
    have ih2 := ih (le_of_lt hk)
    simp only [Gate.arrivals, ih2, Gate.arrive, hk, if_true]
    rw [List.replicate_succ' k Admission.admitted]

/-! ## Results -/

/-- C1, as stated, fails: a route registered before `Open` is bound to its
own handlers only.  On a fresh service, `GET "/ping"` with handler `7`
followed by `Open` leaves the route `/ping` with the chain `[107]`, not the
chain `[0, 1, 2, 3, 107]` of bootstrap, middleware and handler, while the
registrar's route `/image` does get the full chain. -/
theorem C1_route_before_Open_lacks_interceptors :
    ((((New exEnv () exConf).GET "/ping" [7]).Open exEnv).1.router.routes =
        [{ Method := "GET", Path := "/ping", Handlers := [107] },
         { Method := "GET", Path := "/image", Handlers := [0, 1, 2, 3, 107] }]) ∧
    ((((New exEnv () exConf).GET "/ping" [7]).Open exEnv).1.router.routes ≠
        [{ Method := "GET", Path := "/ping", Handlers := [0, 1, 2, 3, 107] },
         { Method := "GET", Path := "/image", Handlers := [0, 1, 2, 3, 107] }]) := by
  constructor
  · rfl
  · decide

/-- C1, amended: on a freshly constructed service on which `Open` is called
once, every route registered during `Open` by the registrar or through a
verb operation after `Open` is bound to the bootstrap interceptor, then the
interceptors of `Build conf.Middleware` in produced order, then its own
handlers in the order given; every route registered before `Open` is bound
to its own handlers only, and `Open` does not change it. -/
theorem C1_route_chains_around_Open {C H N M E : Type} (env : Env C H N M E) (ctx : C)
    (conf : Config M) (pre post : List (Registration H)) :
    ((((New env ctx conf).registerMany pre).Open env).1.registerMany post).router.routes =
      pre.map (fun r =>
        { Method := r.verb.method, Path := r.relativePath,
          Handlers := (env.NewFactory ctx).BuildMany r.handlers }) ++
      (env.imageRoutes ++ post).map (fun r =>
        { Method := r.verb.method, Path := r.relativePath,
          Handlers := (env.NewFactory ctx).Create ::
            (env.Build conf.Middleware ++ (env.NewFactory ctx).BuildMany r.handlers) }) := by
  simp [Service.Open_eq, Service.registerMany_eq, New, Engine.New]
  rfl

/-- C2: one call of `Open` on a freshly constructed service makes exactly
these calls, in this order: `Use` of the bootstrap interceptor, `Use` of
each interceptor of `Build conf.Middleware` in produced order, the
invocation of the registrar (which binds its routes), `ListenAndServe`.  The
registrar is invoked once and `ListenAndServe` is called once, the global
interceptor list is then the bootstrap interceptor followed by
`Build conf.Middleware`, and `Open` returns what `ListenAndServe` returns. -/
theorem C2_Open_effects {C H N M E : Type} (env : Env C H N M E) (ctx : C) (conf : Config M) :
    ((New env ctx conf).Open env).1.calls =
        [Call.Use (env.NewFactory ctx).Create] ++ (env.Build conf.Middleware).map Call.Use ++
          [Call.RegisterAll] ++ env.imageRoutes.map (handleCall (env.NewFactory ctx)) ++
          [Call.ListenAndServe] ∧
    (((New env ctx conf).Open env).1.calls.filter Call.isRegisterAll).length = 1 ∧
    (((New env ctx conf).Open env).1.calls.filter Call.isListenAndServe).length = 1 ∧
    ((New env ctx conf).Open env).1.router.Handlers =
        (env.NewFactory ctx).Create :: env.Build conf.Middleware ∧
    ((New env ctx conf).Open env).1.router.routes =
        env.imageRoutes.map (boundRoute (env.NewFactory ctx)
          ((env.NewFactory ctx).Create :: env.Build conf.Middleware)) ∧
    ((New env ctx conf).Open env).1.conf = conf ∧
    ((New env ctx conf).Open env).2 = env.ListenAndServe { Addr := conf.Address } := by
  simp [Service.Open_eq, New, Engine.New, List.filter_append, List.filter_cons,
    filter_isRegisterAll_map_Use, filter_isRegisterAll_map_handleCall,
    filter_isListenAndServe_map_Use, filter_isListenAndServe_map_handleCall,
    Call.isRegisterAll, Call.isListenAndServe]

/-- C4, as stated, fails: `Open` keeps what it installed when the listener
fails to bind.  On a fresh service whose `ListenAndServe` fails, `Open`
returns the error, yet afterwards the global interceptor list is
`[0, 1, 2, 3]` and the route table holds the registrar's route, where both
were empty before. -/
theorem C4_failed_Open_keeps_state :
    ((New exEnv () exConf).Open exEnv).2 = some "bind: address already in use" ∧
    (New exEnv () exConf).router.Handlers = [] ∧
    (New exEnv () exConf).router.routes = [] ∧
    ((New exEnv () exConf).Open exEnv).1.router.Handlers = [0, 1, 2, 3] ∧
    ((New exEnv () exConf).Open exEnv).1.router.routes =
        [{ Method := "GET", Path := "/image", Handlers := [0, 1, 2, 3, 107] }] ∧
    ((New exEnv () exConf).Open exEnv).1.router.Handlers ≠ (New exEnv () exConf).router.Handlers ∧
    ((New exEnv () exConf).Open exEnv).1.router.routes ≠ (New exEnv () exConf).router.routes := by
  refine ⟨rfl, rfl, rfl, rfl, rfl, by decide, by decide⟩

/-- C4, amended: when `ListenAndServe` fails with error `e`, `Open` returns
`e`; what `Open` installed before listening stays installed: the global
interceptor list is the one before `Open` followed by the bootstrap
interceptor and `Build conf.Middleware`, and the route table is the one
before `Open` followed by the registrar's routes. -/
theorem C4_failed_Open_returns_error {C H N M E : Type} (env : Env C H N M E)
    (s : Service H N M) (e : E) (hfail : env.ListenAndServe s.internal = some e) :
    (s.Open env).2 = some e ∧
    (s.Open env).1.router.Handlers =
        s.router.Handlers ++ s.factory.Create :: env.Build s.conf.Middleware ∧
    (s.Open env).1.router.routes =
        s.router.routes ++ s.image.routes.map (boundRoute s.factory
          (s.router.Handlers ++ s.factory.Create :: env.Build s.conf.Middleware)) := by
  simp [Service.Open_eq, hfail]

theorem C4_failed_Open_returns_error_witness :
    exEnv.ListenAndServe (New exEnv () exConf).internal = some "bind: address already in use" ∧
    ((New exEnv () exConf).Open exEnv).2 = some "bind: address already in use" ∧
    ((New exEnv () exConf).Open exEnv).1.router.Handlers =
        (New exEnv () exConf).router.Handlers ++
          (New exEnv () exConf).factory.Create :: exEnv.Build (New exEnv () exConf).conf.Middleware ∧
    ((New exEnv () exConf).Open exEnv).1.router.routes =
        (New exEnv () exConf).router.routes ++
          (New exEnv () exConf).image.routes.map (boundRoute (New exEnv () exConf).factory
            ((New exEnv () exConf).router.Handlers ++
              (New exEnv () exConf).factory.Create ::
                exEnv.Build (New exEnv () exConf).conf.Middleware)) :=
  ⟨rfl, C4_failed_Open_returns_error exEnv (New exEnv () exConf)
    "bind: address already in use" rfl⟩

/-- C5, as stated, fails: with `QuitTimeout = 9223372036855`, a non-negative
64-bit `int`, the product with `time.Millisecond` wraps around: the timeout
handed to `Shutdown` is `-9223372036854551616` nanoseconds, which is
negative and differs from `9223372036855 * 1000000`. -/
theorem C5_quitTimeout_wraps :
    0 ≤ exLongQuitConf.QuitTimeout ∧
    quitTimeout exLongQuitConf = -9223372036854551616 ∧
    quitTimeout exLongQuitConf < 0 ∧
    quitTimeout exLongQuitConf ≠ exLongQuitConf.QuitTimeout * 1000000 := by
  refine ⟨by decide, by decide, by decide, by decide⟩

/-- C5, amended: for every service whose `QuitTimeout` lies between `0` and
`9223372036854` (the largest number of milliseconds a duration can hold),
the timeout of the context `Quit` passes to `Shutdown` is exactly
`QuitTimeout * 1000000` nanoseconds and is not negative. -/
theorem C5_quitTimeout_exact {C H N M E : Type} (env : Env C H N M E) (s : Service H N M)
    (h0 : 0 ≤ s.conf.QuitTimeout) (h1 : s.conf.QuitTimeout ≤ 9223372036854) :
    quitTimeout s.conf = s.conf.QuitTimeout * 1000000 ∧
    0 ≤ quitTimeout s.conf ∧
    (s.Quit env).1.calls = s.calls ++ [Call.Shutdown (s.conf.QuitTimeout * 1000000)] ∧
    (s.Quit env).2 = env.Shutdown s.internal (s.conf.QuitTimeout * 1000000) := by
  have hq : quitTimeout s.conf = s.conf.QuitTimeout * 1000000 := by
    simp only [quitTimeout, wrapInt64, Millisecond]
    omega
  refine ⟨hq, ?_, ?_, ?_⟩
  · rw [hq]; omega
  · simp [Service.Quit, hq]
  · simp [Service.Quit, hq]

theorem C5_quitTimeout_exact_witness :
    (0 ≤ (New exEnv () exConf).conf.QuitTimeout ∧
     (New exEnv () exConf).conf.QuitTimeout ≤ 9223372036854) ∧
    (quitTimeout (New exEnv () exConf).conf = (New exEnv () exConf).conf.QuitTimeout * 1000000 ∧
     0 ≤ quitTimeout (New exEnv () exConf).conf ∧
     ((New exEnv () exConf).Quit exEnv).1.calls =
       (New exEnv () exConf).calls ++
         [Call.Shutdown ((New exEnv () exConf).conf.QuitTimeout * 1000000)] ∧
     ((New exEnv () exConf).Quit exEnv).2 =
       exEnv.Shutdown (New exEnv () exConf).internal
         ((New exEnv () exConf).conf.QuitTimeout * 1000000)) :=
  ⟨⟨by decide, by decide⟩,
   C5_quitTimeout_exact exEnv (New exEnv () exConf) (by decide) (by decide)⟩

/-- C8: `DefaultConfig` returns a `nil` error and the configuration with
address `:8080`, buffer size 200, request timeout 3000, quit timeout 5000,
maximal concurrency equal to the detected core count, an empty middleware
path and a `nil` middleware value; when the core count is at least 1, so is
the maximal concurrency. -/
theorem C8_DefaultConfig_values {M E : Type} (numCPU : Int) :
    (@DefaultConfig M E numCPU).2 = none ∧
    (@DefaultConfig M E numCPU).1.Address = ":8080" ∧
    (@DefaultConfig M E numCPU).1.BufferSize = 200 ∧
    (@DefaultConfig M E numCPU).1.RequestTimeout = 3000 ∧
    (@DefaultConfig M E numCPU).1.QuitTimeout = 5000 ∧
    (@DefaultConfig M E numCPU).1.MaxConcurrency = numCPU ∧
    (@DefaultConfig M E numCPU).1.MiddlewarePath = "" ∧
    (@DefaultConfig M E numCPU).1.Middleware = none ∧
    (1 ≤ numCPU → 1 ≤ (@DefaultConfig M E numCPU).1.MaxConcurrency) :=
  ⟨rfl, rfl, rfl, rfl, rfl, rfl, rfl, rfl, fun h => h⟩

theorem C8_DefaultConfig_values_witness :
    (@DefaultConfig Unit String 4).1.MaxConcurrency = 4 ∧
    1 ≤ (@DefaultConfig Unit String 4).1.MaxConcurrency :=
  ⟨(C8_DefaultConfig_values 4).2.2.2.2.2.1,
   (C8_DefaultConfig_values 4).2.2.2.2.2.2.2.2 (by decide)⟩

/-- C9: for every configuration, whatever its `MaxConcurrency`, `New`
returns a service whose stored configuration is the given one, unchanged,
and whose server listens on the configured address; the new service has an
empty router. -/
theorem C9_New_keeps_conf {C H N M E : Type} (env : Env C H N M E) (ctx : C) (conf : Config M) :
    (New env ctx conf).conf = conf ∧
    (New env ctx conf).conf.MaxConcurrency = conf.MaxConcurrency ∧
    (New env ctx conf).internal.Addr = conf.Address ∧
    (New env ctx conf).factory = env.NewFactory ctx ∧
    (New env ctx conf).router.Handlers = [] ∧
    (New env ctx conf).router.routes = [] :=
  ⟨rfl, rfl, rfl, rfl, rfl, rfl⟩

/-- C10: with `MaxConcurrency = n` and `BufferSize = 0`, when `n + 1`
long-running requests arrive at the gate of the bootstrap interceptor,
exactly `n` are admitted, exactly one is rejected and none is queued; and
after any number of arrivals at most `MaxConcurrency` requests are in
flight. -/
theorem C10_admission_ceiling {M : Type} (conf : Config M) (n : Nat)
    (hmax : conf.MaxConcurrency = n) (hbuf : conf.BufferSize = 0) :
    (Gate.arrivals conf (n + 1) Gate.idle).2 =
        List.replicate n Admission.admitted ++ [Admission.rejected] ∧
    (Gate.arrivals conf (n + 1) Gate.idle).2.count Admission.admitted = n ∧
    (Gate.arrivals conf (n + 1) Gate.idle).2.count Admission.rejected = 1 ∧
    (Gate.arrivals conf (n + 1) Gate.idle).2.count Admission.queued = 0 ∧
    (∀ k : Nat, ((Gate.arrivals conf k Gate.idle).1.inFlight : Int) ≤ conf.MaxConcurrency) := by
  have hrun : (Gate.arrivals conf (n + 1) Gate.idle).2 =
      List.replicate n Admission.admitted ++ [Admission.rejected] := by
    have hbelow := Gate.arrivals_below_ceiling conf n (by rw [hmax])
    simp only [Gate.arrivals, hbelow, Gate.arrive, hmax, hbuf]
    simp
  refine ⟨hrun, ?_, ?_, ?_, ?_⟩
  · rw [hrun]; simp [List.count_replicate]
  · rw [hrun]; simp [List.count_replicate]
  · rw [hrun]; simp [List.count_replicate]
  · intro k
    exact Gate.arrivals_inFlight_le conf (by rw [hmax]; exact Int.natCast_nonneg n) k

theorem C10_admission_ceiling_witness :
    (exGateConf.MaxConcurrency = ((2 : Nat) : Int) ∧ exGateConf.BufferSize = 0) ∧
    (Gate.arrivals exGateConf (2 + 1) Gate.idle).2 =
        [Admission.admitted, Admission.admitted, Admission.rejected] ∧
    (Gate.arrivals exGateConf (2 + 1) Gate.idle).2.count Admission.admitted = 2 ∧
    (Gate.arrivals exGateConf (2 + 1) Gate.idle).2.count Admission.rejected = 1 :=
  ⟨⟨rfl, rfl⟩,
   (C10_admission_ceiling exGateConf 2 rfl rfl).1,
   (C10_admission_ceiling exGateConf 2 rfl rfl).2.1,
   (C10_admission_ceiling exGateConf 2 rfl rfl).2.2.1⟩

end Nephele
